import Mathlib

/-!
Shallow embedding of the tapoctl daemon core (session coordination, state
cache, property-delta resolution and RPC dispatch) and verification of the
spec claims against it.

Sources embedded:
  - src/device.rs            (session state machine)
  - src/src/tapo/state.rs    (state cache)
  - src/src/tapo/server.rs   (RPC dispatch and the set pipeline)
  - src/src/tapo/validation.rs (request validators, present but unwired)
  - src/src/tapo/device/mod.rs (session-timeout retry combinator)
  - src/src/error.rs         (session-timeout classification)

Machine integers are modelled as Nat with explicit wraparound (mod 2^8 /
mod 2^16) at the subtraction and addition sites of the source, matching
release-mode (wrapping) Rust semantics; every site where the source could
wrap is additionally characterised by an explicit totality predicate.
Wall-clock instants (SystemTime) are milliseconds since an arbitrary
epoch, as Nat.
-/

namespace Tapoctl

/-! ### Machine integer helpers (u8 / u16 with wrapping semantics) -/

/-- u8::try_from(n as u32).unwrap_or_default() -/
def u8OfNat (v : Nat) : Nat := if v < 256 then v else 0

/-- u16::try_from(n as u32).unwrap_or_default() -/
def u16OfNat (v : Nat) : Nat := if v < 65536 then v else 0

/-- u8::try_from(i as i32).unwrap_or_default() -/
def u8OfInt (v : Int) : Nat := if 0 ≤ v ∧ v < 256 then v.toNat else 0

/-- u16::try_from(i as i32).unwrap_or_default() -/
def u16OfInt (v : Int) : Nat := if 0 ≤ v ∧ v < 65536 then v.toNat else 0

/-- wrapping u8 addition -/
def u8add (a b : Nat) : Nat := (a + b) % 256

/-- wrapping u8 subtraction -/
def u8sub (a b : Nat) : Nat := (a + 256 - b) % 256

/-- wrapping u16 addition -/
def u16add (a b : Nat) : Nat := (a + b) % 65536

/-- wrapping u16 subtraction -/
def u16sub (a b : Nat) : Nat := (a + 65536 - b) % 65536

/-! ### rpc data model
The rpc module is generated by tonic from proto/tapo.proto; the message
shapes are reconstructed from their uses across server.rs and state.rs. -/

structure Rgb where
  red : Nat
  green : Nat
  blue : Nat
deriving DecidableEq, Repr

structure InfoResponse where
  brightness : Option Nat := none
  device_on : Option Bool := none
  dynamic_effect_id : Option String := none
  hue : Option Nat := none
  on_time : Option Nat := none
  overheated : Bool := false
  saturation : Option Nat := none
  temperature : Option Nat := none
  color : Option Rgb := none
  name : String := ""
deriving DecidableEq, Repr

structure IntegerValueChange where
  absolute : Bool
  value : Int
deriving DecidableEq, Repr

structure HueSaturation where
  hue : Option IntegerValueChange := none
  saturation : Option IntegerValueChange := none
deriving DecidableEq, Repr

structure SetRequest where
  device : String := ""
  color : Option Nat := none
  brightness : Option IntegerValueChange := none
  temperature : Option IntegerValueChange := none
  hue_saturation : Option HueSaturation := none
  power : Option Bool := none
deriving DecidableEq, Repr

structure UsagePerPeriodSrc where
  today : Nat
  past7 : Nat
  past30 : Nat
deriving DecidableEq, Repr

structure DeviceUsageResult where
  power_usage : UsagePerPeriodSrc
  time_usage : UsagePerPeriodSrc
  saved_power : UsagePerPeriodSrc
deriving DecidableEq, Repr

structure UsagePerPeriod where
  today : Nat
  week : Nat
  month : Nat
deriving DecidableEq, Repr

structure UsageResponse where
  power_usage : Option UsagePerPeriod := none
  time_usage : Option UsagePerPeriod := none
  saved_power : Option UsagePerPeriod := none
deriving DecidableEq, Repr

/-! ### tonic status and tapo library errors (external collaborator boundary) -/

inductive GrpcCode where
  | notFound
  | unauthenticated
  | invalidArgument
  | unimplemented
  | internal
deriving DecidableEq, Repr

structure GrpcStatus where
  code : GrpcCode
  message : String
deriving DecidableEq, Repr

inductive TapoResponseError where
  | sessionTimeout
  | otherResponse (code : Nat)
deriving DecidableEq, Repr

/-- tapo::Error: the Tapo(TapoResponseError) variant is the one the code
distinguishes; all remaining variants are collapsed into otherError. -/
inductive TapoError where
  | tapo (e : TapoResponseError)
  | otherError (message : String)
deriving DecidableEq, Repr

def tapo_error_message : TapoError → String
  | .tapo .sessionTimeout => "Session timeout"
  | .tapo (.otherResponse c) => "Response error " ++ toString c
  | .otherError m => m

/-- src/error.rs, TapoErrorExt for Result: true exactly on
Err(tapo::Error::Tapo(TapoResponseError::SessionTimeout)). -/
def is_session_timeout {α : Type} : Except TapoError α → Bool
  | .error (.tapo .sessionTimeout) => true
  | _ => false

/-- Modelled from the spec: the TapoErrMap trait (map_tapo_err) is not
present under src/ (only its callers are). Spec section 7: every error kind
other than the internally retried SessionExpired propagates immediately as
a structured error carrying a stable kind and a human-readable message;
protocol failures surface as Internal. -/
def map_tapo_err {α : Type} : Except TapoError α → Except GrpcStatus α
  | .ok a => .ok a
  | .error e => .error ⟨.internal, tapo_error_message e⟩

/-! ### src/device.rs: session state machine -/

def SESSION_VALIDITY_MILLIS : Nat := 60 * 60 * 1000

def SESSION_REFRESH_RETRIES : Nat := 10

def REPEATED_FAILURE_RETRY_MILLIS : Nat := 10 * 60 * 1000

inductive SessionStatus where
  | authenticated
  | failure
  | repeatedFailure
deriving DecidableEq, Repr

inductive SupportedDevice where
  | l530 | l630 | l900 | l510 | l520 | l610 | generic
deriving DecidableEq, Repr

inductive HandlerKind where
  | colorLight
  | light
  | generic
deriving DecidableEq, Repr

/-- Device::acquire_handler: which handler variant each device type yields. -/
def handler_kind_of : SupportedDevice → HandlerKind
  | .l530 => .colorLight
  | .l630 => .colorLight
  | .l900 => .colorLight
  | .l510 => .light
  | .l520 => .light
  | .l610 => .light
  | .generic => .generic

/-- Device: api client and event sender are externals; refresh_retires is a
u8 in the source, kept as Nat (every mutation caps it with min at 10 or
resets it to 0 or 1, so it never wraps). -/
structure Device where
  address : String
  name : String
  dtype : SupportedDevice
  session_status : SessionStatus
  next_session_action : Nat
  handler : Option HandlerKind
  refresh_retires : Nat
deriving DecidableEq, Repr

/-- rpc::Device, the payload of a DeviceAuthChange event. -/
structure RpcDevice where
  name : String
  status : SessionStatus
  address : String
  dtype : SupportedDevice
deriving DecidableEq, Repr

def Device.rpc_device (d : Device) : RpcDevice :=
  ⟨d.name, d.session_status, d.address, d.dtype⟩

deriving instance DecidableEq for Except

/-- Result of Device::refresh_session: the device after the call, the
returned Result (errors are Status::internal of the underlying tapo error),
and the DeviceAuthChange events broadcast. -/
structure RefreshOutcome where
  device : Device
  result : Except GrpcStatus Unit
  events : List RpcDevice
deriving DecidableEq, Repr

/-- Device::refresh_session. The outcome of the external attempt (the
handler refresh when a handler exists, otherwise the acquisition through
the api client) is the `attempt` parameter. -/
def Device.refresh_session (d : Device) (now : Nat)
    (attempt : Except TapoError Unit) : RefreshOutcome :=
  let current := d.session_status
  let d1 : Device :=
    match d.handler with
    | some _ =>
      match attempt with
      | .ok _ => { d with next_session_action := now + SESSION_VALIDITY_MILLIS }
      | .error _ => { d with session_status := .failure, refresh_retires := 1 }
    | none =>
      match attempt with
      | .ok _ =>
        { d with session_status := .authenticated,
                 next_session_action := now + SESSION_VALIDITY_MILLIS,
                 refresh_retires := 0,
                 handler := some (handler_kind_of d.dtype) }
      | .error _ =>
        let retries := min (d.refresh_retires + 1) SESSION_REFRESH_RETRIES
        if retries = SESSION_REFRESH_RETRIES then
          { d with refresh_retires := retries,
                   session_status := .repeatedFailure,
                   next_session_action := now + REPEATED_FAILURE_RETRY_MILLIS }
        else
          { d with refresh_retires := retries }
  let res : Except GrpcStatus Unit :=
    match attempt with
    | .ok _ => .ok ()
    | .error e => .error ⟨.internal, tapo_error_message e⟩
  { device := d1,
    result := res,
    events := if current = d1.session_status then [] else [d1.rpc_device] }

/-- Device::try_refresh_session: refresh only when now has reached
next_session_action, otherwise Ok without touching anything. -/
def Device.try_refresh_session (d : Device) (now : Nat)
    (attempt : Except TapoError Unit) : RefreshOutcome :=
  if d.next_session_action ≤ now then d.refresh_session now attempt
  else { device := d, result := .ok (), events := [] }

/-! ### src/src/tapo/state.rs: state cache -/

def INFO_VALIDITY_MILLIS : Nat := 30 * 1000

structure DeviceInfo where
  response : InfoResponse
  created : Nat
deriving DecidableEq, Repr

/-- State.info: HashMap from device name to cached info. -/
def StateMap := String → Option DeviceInfo

/-- A DeviceStateChange broadcast (the event macro serialises the info
together with the device name; serialisation itself is external). -/
structure StateEvent where
  device : String
  info : InfoResponse
deriving DecidableEq, Repr

/-- State::get_info, exactly as in the source: when an entry exists and
`created + INFO_VALIDITY_MILLIS < now` it returns the cached response with
on_time advanced by the elapsed whole seconds; in every other case it
returns InfoResponse::default() — the device-handler refresh that the doc
comment of the function promises is commented out in the source. -/
def State.get_info (info : StateMap) (now : Nat) (name : String) : InfoResponse :=
  match info name with
  | some di =>
    if di.created + INFO_VALIDITY_MILLIS < now then
      { di.response with
        on_time := di.response.on_time.map (fun t => t + (now - di.created) / 1000) }
    else ({} : InfoResponse)
  | none => ({} : InfoResponse)

/-- State::update_info_optimistically: no-op when the cached response equals
the new one; otherwise stores the snapshot with the current timestamp and
broadcasts one DeviceStateChange event. -/
def State.update_info_optimistically (st : StateMap) (now : Nat)
    (device : String) (info : InfoResponse) : StateMap × List StateEvent :=
  match st device with
  | some current =>
    if current.response = info then (st, [])
    else
      (fun n => if n = device then some ⟨info, now⟩ else st n,
       [⟨device, info⟩])
  | none =>
    (fun n => if n = device then some ⟨info, now⟩ else st n,
     [⟨device, info⟩])

/-! ### src/src/tapo/server.rs: the set pipeline -/

/-- Option::or(Some(0)) on on_time. -/
def or_some_zero : Option Nat → Option Nat
  | some t => some t
  | none => some 0

/-- i32::abs with release-mode wrapping semantics: the absolute value,
except that i32::MIN has no i32 counterpart and wraps to itself (a panic
under debug overflow checks). Stated through natAbs so the value is exact
on every representable i32 other than MIN. -/
def i32_wrapping_abs (v : Int) : Int :=
  if v = -2147483648 then v else (v.natAbs : Int)

/-- get_transformed_brightness (nested fn in TapoService::set). The
magnitude clamp max(min(abs, 100), 1) is computed in i32 before the
conversion to u8, so a wrapped abs at i32::MIN yields change_abs = 1. -/
def get_transformed_brightness (info : InfoResponse) (change : IntegerValueChange) : Nat :=
  let current := u8OfNat (info.brightness.getD 0)
  let current :=
    if change.absolute then
      u8OfInt change.value
    else
      let change_abs := u8OfInt (max (min (i32_wrapping_abs change.value) 100) 1)
      if change.value < 0 then
        u8sub current change_abs
      else
        u8add current change_abs
  min (max current 1) 100

/-- Hue resolution in the ColorLight branch of TapoService::set (current
value is the cached info.hue, defaulted to 0). The final clamp into
[1,360] is the source line applied after both branches. -/
def resolve_hue (current0 : Option Nat) (change : IntegerValueChange) : Nat :=
  let current := u16OfNat (current0.getD 0)
  let current :=
    if change.absolute then
      u16OfInt change.value
    else
      let ch := u16OfNat (Int.tmod change.value 360).natAbs
      let current := if change.value < 0 then u16sub current ch else u16add current ch
      let current := current % 360
      if current = 0 then 360 else current
  min (max current 1) 360

/-- Saturation resolution in the ColorLight branch of TapoService::set. -/
def resolve_saturation (current0 : Option Nat) (change : IntegerValueChange) : Nat :=
  let current := u8OfNat (current0.getD 0)
  if change.absolute then
    u8OfInt change.value
  else
    let ch := u8OfNat (max (min change.value.natAbs 100) 1)
    if change.value < 0 then
      u8sub current (min ch (u8sub current 1))
    else
      u8add current (min ch (u8sub 100 current))

/-- Totality of the u8 arithmetic inside the relative saturation branch:
true exactly when no subtraction or addition wraps around. -/
def saturation_arith_ok (current0 : Option Nat) (change : IntegerValueChange) : Bool :=
  let current := u8OfNat (current0.getD 0)
  if change.absolute then true
  else
    let ch := u8OfNat (max (min change.value.natAbs 100) 1)
    if change.value < 0 then
      decide (1 ≤ current) && decide (min ch (current - 1) ≤ current)
    else
      decide (current ≤ 100) && decide (current + min ch (100 - current) ≤ 255)

/-- Temperature resolution in the ColorLight branch of TapoService::set. -/
def resolve_temperature (current0 : Option Nat) (change : IntegerValueChange) : Nat :=
  let current := u16OfNat (current0.getD 0)
  let current :=
    if change.absolute then
      u16OfInt change.value
    else
      let change_abs := u16OfNat (max (min change.value.natAbs 6500) 2500)
      if change.value < 0 then u16sub current change_abs else u16add current change_abs
  min (max current 2500) 6500

/-- The four absolute-range checks at the head of TapoService::set, in
source order (temperature, hue, saturation, brightness). -/
def set_validate (temperature hue saturation brightness : Option IntegerValueChange) :
    Except GrpcStatus Unit := do
  match temperature with
  | some change =>
    if change.absolute = true ∧ ¬(2500 ≤ change.value ∧ change.value ≤ 6500) then
      throw ⟨GrpcCode.invalidArgument, "Temperature has to be in range 2500 to 6500"⟩
    else pure ()
  | none => pure ()
  match hue with
  | some change =>
    if change.absolute = true ∧ ¬(1 ≤ change.value ∧ change.value ≤ 360) then
      throw ⟨GrpcCode.invalidArgument, "Hue has to be in range 1 to 360"⟩
    else pure ()
  | none => pure ()
  match saturation with
  | some change =>
    if change.absolute = true ∧ ¬(1 ≤ change.value ∧ change.value ≤ 100) then
      throw ⟨GrpcCode.invalidArgument, "Saturation has to be in range 1 to 100"⟩
    else pure ()
  | none => pure ()
  match brightness with
  | some change =>
    if change.absolute = true ∧ ¬(1 ≤ change.value ∧ change.value ≤ 100) then
      throw ⟨GrpcCode.invalidArgument, "Brightness has to be in range 1 to 100"⟩
    else pure ()
  | none => pure ()

/-- The ColorLight branch of TapoService::set, after the session refresh
and the silent cache read succeeded with snapshot info0.

External collaborators out of the specified core are parameters:
colorToHst is color_to_hst (preset table, not under src/), anyToRgb is
any_to_rgb (color conversion math, explicitly out of scope), sendResult is
the outcome of the device set.send call. The optimistic cache write that
follows a successful send is State.update_info_optimistically. -/
def set_color_light (colorToHst : Nat → Nat × Nat × Nat)
    (anyToRgb : Option Nat → Option Nat → Option Nat → Option Nat → Option Rgb)
    (req : SetRequest) (info0 : InfoResponse)
    (sendResult : Except TapoError Unit) : Except GrpcStatus InfoResponse :=
  let hs := match req.hue_saturation with
    | some hs => (hs.hue, hs.saturation)
    | none => ((none : Option IntegerValueChange), (none : Option IntegerValueChange))
  let hue := hs.1
  let saturation := hs.2
  match set_validate req.temperature hue saturation req.brightness with
  | .error s => .error s
  | .ok _ =>
    let info := info0
    let info :=
      match req.brightness with
      | some change =>
        let current := get_transformed_brightness info change
        { info with brightness := some current,
                    device_on := some true,
                    on_time := or_some_zero info.on_time }
      | none => info
    let info :=
      match hue, saturation with
      | some change_hue, some change_saturation =>
        let current_hue := resolve_hue info.hue change_hue
        let current_saturation := resolve_saturation info.saturation change_saturation
        { info with hue := some current_hue,
                    saturation := some current_saturation,
                    device_on := some true,
                    temperature := some 0,
                    on_time := or_some_zero info.on_time }
      | _, _ => info
    let info :=
      match req.temperature with
      | some change =>
        { info with temperature := some (resolve_temperature info.temperature change),
                    hue := none,
                    saturation := none,
                    device_on := some true,
                    on_time := or_some_zero info.on_time }
      | none => info
    let info :=
      match req.color with
      | some c =>
        let info := { info with device_on := some true }
        let hst := colorToHst c
        let info :=
          if hst.1 > 0 then
            { info with hue := some hst.1, saturation := some hst.2.1 }
          else
            { info with hue := none, saturation := none }
        { info with temperature := some hst.2.2 }
      | none => info
    let info :=
      match req.power with
      | some true => { info with device_on := some true, on_time := or_some_zero info.on_time }
      | some false => { info with device_on := some false, on_time := none }
      | none => info
    let info := { info with color := anyToRgb info.temperature info.hue info.saturation info.brightness }
    match map_tapo_err sendResult with
    | .error s => .error s
    | .ok _ => .ok info

/-! ### src/src/tapo/server.rs: reset and usage dispatch -/

inductive HandleOp where
  | refreshSessionOp
  | deviceResetOp
  | getDeviceUsageOp
deriving DecidableEq, Repr

/-- Handle operations performed by Device::refresh_session: the handler
refresh when a handler exists; acquisition creates a handle and performs no
operation on an existing one. -/
def Device.refresh_handle_ops (d : Device) : List HandleOp :=
  match d.handler with
  | some _ => [.refreshSessionOp]
  | none => []

def Device.try_refresh_handle_ops (d : Device) (now : Nat) : List HandleOp :=
  if d.next_session_action ≤ now then d.refresh_handle_ops else []

/-- Outcome of one RPC against one resolved device: the grpc result, the
operations invoked on the device handle, the device afterwards, and the
auth events broadcast along the way. -/
structure RpcOutcome (α : Type) where
  result : Except GrpcStatus α
  handle_ops : List HandleOp
  device : Device
  events : List RpcDevice

/-- Device::get_handler error (the quotes around the name are omitted from
the message). -/
def unauthenticated_status (name : String) : GrpcStatus :=
  ⟨.unauthenticated,
   "The device " ++ name ++
   " is currently unauthenticated. Try again later or verify the configuration should the issue persist."⟩

/-- TapoService::reset for one resolved device: try_refresh_session, then
get_handler, then dispatch on the handler variant; the Generic fallback arm
returns Unimplemented without touching the handle. opResult is the outcome
of handler.device_reset() when it is reached. -/
def TapoService.reset (d : Device) (now : Nat)
    (attempt : Except TapoError Unit) (opResult : Except TapoError Unit) :
    RpcOutcome Unit :=
  let r := d.try_refresh_session now attempt
  let ops := d.try_refresh_handle_ops now
  match r.result with
  | .error s => { result := .error s, handle_ops := ops, device := r.device, events := r.events }
  | .ok _ =>
    match r.device.handler with
    | none =>
      { result := .error (unauthenticated_status r.device.name),
        handle_ops := ops, device := r.device, events := r.events }
    | some .light =>
      { result := map_tapo_err opResult,
        handle_ops := ops ++ [.deviceResetOp], device := r.device, events := r.events }
    | some .colorLight =>
      { result := map_tapo_err opResult,
        handle_ops := ops ++ [.deviceResetOp], device := r.device, events := r.events }
    | some .generic =>
      { result := .error ⟨.unimplemented, "Reset API is not supported by this device type"⟩,
        handle_ops := ops, device := r.device, events := r.events }

/-- The field mapping of TapoService::usage on a successful handler call. -/
def usage_response_of (usage : DeviceUsageResult) : UsageResponse :=
  { power_usage := some ⟨usage.power_usage.today, usage.power_usage.past7, usage.power_usage.past30⟩,
    time_usage := some ⟨usage.time_usage.today, usage.time_usage.past7, usage.time_usage.past30⟩,
    saved_power := some ⟨usage.saved_power.today, usage.saved_power.past7, usage.saved_power.past30⟩ }

/-- TapoService::usage for one resolved device; the Generic arm returns
Unimplemented without touching the handle. opResult is the outcome of
handler.get_device_usage() when it is reached. -/
def TapoService.usage (d : Device) (now : Nat)
    (attempt : Except TapoError Unit) (opResult : Except TapoError DeviceUsageResult) :
    RpcOutcome UsageResponse :=
  let r := d.try_refresh_session now attempt
  let ops := d.try_refresh_handle_ops now
  match r.result with
  | .error s => { result := .error s, handle_ops := ops, device := r.device, events := r.events }
  | .ok _ =>
    match r.device.handler with
    | none =>
      { result := .error (unauthenticated_status r.device.name),
        handle_ops := ops, device := r.device, events := r.events }
    | some .light =>
      { result := (map_tapo_err opResult).map usage_response_of,
        handle_ops := ops ++ [.getDeviceUsageOp], device := r.device, events := r.events }
    | some .colorLight =>
      { result := (map_tapo_err opResult).map usage_response_of,
        handle_ops := ops ++ [.getDeviceUsageOp], device := r.device, events := r.events }
    | some .generic =>
      { result := .error ⟨.unimplemented, "Device usage API is not supported by this device type"⟩,
        handle_ops := ops, device := r.device, events := r.events }

/-! ### src/src/tapo/validation.rs (present in the tree, not declared as a
module anywhere — the validators are wired into the generated SetRequest by
build.rs but nothing under src/ ever invokes validation) -/

/-- validate_hue -/
def validate_hue_change (change : IntegerValueChange) : Except String Unit :=
  if change.absolute = true ∧ ¬(1 ≤ change.value ∧ change.value ≤ 360) then
    .error "Hue value has to be in range 1 to 360"
  else .ok ()

/-- validate_saturation -/
def validate_saturation_change (change : IntegerValueChange) : Except String Unit :=
  if change.absolute = true ∧ ¬(1 ≤ change.value ∧ change.value ≤ 100) then
    .error "Saturation value has to be in range 1 to 100"
  else .ok ()

/-- validate_hue_saturation -/
def validate_hue_saturation (hs : HueSaturation) : Except String Unit := do
  if hs.hue.isSome && hs.saturation.isNone then
    throw "Saturation has to be set as well if hue is set"
  else if hs.hue.isNone && hs.saturation.isSome then
    throw "Hue has to be set as well if saturation is set"
  else pure ()
  match hs.hue with
  | some hue => validate_hue_change hue
  | none => pure ()
  match hs.saturation with
  | some saturation => validate_saturation_change saturation
  | none => pure ()

/-! ### src/src/tapo/device/mod.rs: session-timeout retry combinator -/

/-- TapoDeviceExt::get_info: call the handler; when the call failed with the
distinguished session-timeout error, force a session refresh (whose failure
propagates) and repeat the call exactly once; map the final result. The
value is the mapped result paired with the number of handler get_info
invocations. first and second are the outcomes of the two possible handler
calls, refreshResult the outcome of the forced refresh. -/
def TapoDeviceExt.get_info (first second : Except TapoError InfoResponse)
    (refreshResult : Except TapoError Unit) :
    Except GrpcStatus InfoResponse × Nat :=
  if is_session_timeout first then
    match refreshResult with
    | .error e => (.error ⟨.internal, tapo_error_message e⟩, 1)
    | .ok _ => (map_tapo_err second, 2)
  else (map_tapo_err first, 1)

/-! ### Spec-side reference definitions (used to state refutations and
amendments; these follow the words of the spec, not the source) -/

/-- Spec formula for non-cyclic relative resolution: clamp(current + value)
into [lo, hi]. -/
def spec_clamped (current : Nat) (value : Int) (lo hi : Int) : Int :=
  max (min ((current : Int) + value) hi) lo

/-- Spec formula for cyclic hue resolution: (current + value) mod 360,
normalised to 360 when the remainder is 0. -/
def spec_hue (current : Nat) (value : Int) : Nat :=
  let m := ((current : Int) + value) % 360
  if m = 0 then 360 else m.toNat

/-! ## Theorems -/

/-- C1: the claim says a read within the 30 s validity window returns the
cached snapshot with on_time advanced by the elapsed seconds, and a read at
or past the window fetches, stores and emits. The source of State::get_info
does the opposite: its freshness test is inverted (the comparison
`created + validity < now` selects the EXPIRED entries for the cached
reply) and the refresh path is commented out, so a fresh entry (here 1 s
old) yields the default (empty) response, while an expired entry (here 40 s
old) yields the stale extrapolated cache with no fetch and no event. This
theorem evaluates the embedded source at both failing inputs. -/
theorem c1_get_info_code_bug :
    (State.get_info
        (fun n => if n = "lamp" then
          some ⟨{ brightness := some 40, device_on := some true, on_time := some 100 }, 0⟩
         else none) 1000 "lamp")
      = ({} : InfoResponse)
    ∧ (State.get_info
        (fun n => if n = "lamp" then
          some ⟨{ brightness := some 40, device_on := some true, on_time := some 100 }, 0⟩
         else none) 1000 "lamp")
      ≠ { brightness := some 40, device_on := some true, on_time := some 101 }
    ∧ (State.get_info
        (fun n => if n = "lamp" then
          some ⟨{ brightness := some 40, device_on := some true, on_time := some 100 }, 0⟩
         else none) 40000 "lamp")
      = { brightness := some 40, device_on := some true, on_time := some 140 } := by
  refine ⟨by decide, by decide, by decide⟩

/-- C2 counterexample: a device that holds a handler but is currently in
Failure status (reachable: one failed refresh of an authenticated device
sets exactly this state) stays in Failure with failure count 1 after a
successful refresh — the source success path only moves
next_session_action, refuting the claimed status → Authenticated and
count → 0. -/
theorem c2_refresh_success_counterexample :
    ¬ ((({ address := "a", name := "lamp", dtype := .l530,
           session_status := .failure, next_session_action := 0,
           handler := some .colorLight, refresh_retires := 1 } : Device).refresh_session
            5 (.ok ())).device.session_status = .authenticated
       ∧ (({ address := "a", name := "lamp", dtype := .l530,
             session_status := .failure, next_session_action := 0,
             handler := some .colorLight, refresh_retires := 1 } : Device).refresh_session
              5 (.ok ())).device.next_session_action = 5 + SESSION_VALIDITY_MILLIS
       ∧ (({ address := "a", name := "lamp", dtype := .l530,
             session_status := .failure, next_session_action := 0,
             handler := some .colorLight, refresh_retires := 1 } : Device).refresh_session
              5 (.ok ())).device.refresh_retires = 0) := by
  decide

/-- C2 amended: when refresh_session succeeds on a device that already
holds a handler, the only mutation is next_session_action := now + the
60-minute validity window; session status and the refresh failure count
are left unchanged (hence in particular no DeviceAuthChange event is
emitted), and the call returns Ok. -/
theorem c2_refresh_success_amended (d : Device) (now : Nat)
    (h : d.handler.isSome = true) :
    (d.refresh_session now (.ok ())).device
      = { d with next_session_action := now + SESSION_VALIDITY_MILLIS }
    ∧ (d.refresh_session now (.ok ())).result = .ok ()
    ∧ (d.refresh_session now (.ok ())).events = [] := by
  obtain ⟨k, hk⟩ := Option.isSome_iff_exists.mp h
  simp [Device.refresh_session, hk]

/-- C2 witness: the amended statement evaluated on a concrete device. -/
theorem c2_refresh_success_amended_witness :
    (({ address := "a", name := "lamp", dtype := .l530,
        session_status := .failure, next_session_action := 0,
        handler := some .colorLight, refresh_retires := 1 } : Device).refresh_session
         5 (.ok ())).device.next_session_action = 5 + SESSION_VALIDITY_MILLIS := by
  have h := c2_refresh_success_amended
    { address := "a", name := "lamp", dtype := .l530,
      session_status := .failure, next_session_action := 0,
      handler := some .colorLight, refresh_retires := 1 } 5 (by decide)
  rw [h.1]

/-- C3: the claim (and the spec example) requires relative hue resolution
to be (current + value) mod 360 normalised to 0 → 360, with negative
deltas wrapping backward: 350 + 20 → 10 and 5 − 20 → 345. The source gets
the positive example right but computes the negative case with an
unguarded u16 subtraction: 5 − 20 underflows (a panic under debug
overflow checks; under release wrapping semantics it becomes 65521, and
65521 mod 360 = 1 because 2^16 is not a multiple of 360), so the code
yields 1 where the claim requires 345. This theorem evaluates the
embedded source at both spec examples. -/
theorem c3_hue_wraparound_code_bug :
    resolve_hue (some 350) ⟨false, 20⟩ = 10
    ∧ spec_hue 350 20 = 10
    ∧ resolve_hue (some 5) ⟨false, -20⟩ = 1
    ∧ spec_hue 5 (-20) = 345
    ∧ resolve_hue (some 5) ⟨false, -20⟩ ≠ spec_hue 5 (-20) := by
  refine ⟨by decide, by decide, by decide, by decide, by decide⟩

/-- C4: on a failed session acquisition for a device without a handler the
failure count becomes min(previous + 1, 10); when the count reaches 10 the
status becomes RepeatedFailure and next_session_action becomes now plus the
10-minute cooldown, after which every try_refresh_session call before that
time is a no-op (device unchanged, Ok result, no events); below 10 the
status and next_session_action are unchanged (in particular a Failure
device stays in Failure) and any call at or past next_session_action
attempts a refresh. -/
theorem c4_session_backoff (d : Device) (now : Nat) (e : TapoError)
    (h : d.handler = none) :
    (d.refresh_session now (.error e)).device.refresh_retires
      = min (d.refresh_retires + 1) SESSION_REFRESH_RETRIES
    ∧ ((d.refresh_session now (.error e)).device.refresh_retires = SESSION_REFRESH_RETRIES →
        (d.refresh_session now (.error e)).device.session_status = .repeatedFailure
        ∧ (d.refresh_session now (.error e)).device.next_session_action
            = now + REPEATED_FAILURE_RETRY_MILLIS)
    ∧ ((d.refresh_session now (.error e)).device.refresh_retires < SESSION_REFRESH_RETRIES →
        (d.refresh_session now (.error e)).device.session_status = d.session_status
        ∧ (d.refresh_session now (.error e)).device.next_session_action
            = d.next_session_action)
    ∧ (d.session_status = .failure →
        (d.refresh_session now (.error e)).device.refresh_retires < SESSION_REFRESH_RETRIES →
        (d.refresh_session now (.error e)).device.session_status = .failure)
    ∧ (∀ now2 a2, now2 < (d.refresh_session now (.error e)).device.next_session_action →
        (d.refresh_session now (.error e)).device.try_refresh_session now2 a2
          = { device := (d.refresh_session now (.error e)).device,
              result := .ok (), events := [] })
    ∧ (∀ now2 a2, (d.refresh_session now (.error e)).device.next_session_action ≤ now2 →
        (d.refresh_session now (.error e)).device.try_refresh_session now2 a2
          = (d.refresh_session now (.error e)).device.refresh_session now2 a2) := by
  have hnoop : ∀ (dd : Device) (now2 : Nat) (a2 : Except TapoError Unit),
      now2 < dd.next_session_action →
      dd.try_refresh_session now2 a2 = { device := dd, result := .ok (), events := [] } := by
    intro dd now2 a2 hlt
    simp [Device.try_refresh_session, Nat.not_le.mpr hlt]
  have hgo : ∀ (dd : Device) (now2 : Nat) (a2 : Except TapoError Unit),
      dd.next_session_action ≤ now2 →
      dd.try_refresh_session now2 a2 = dd.refresh_session now2 a2 := by
    intro dd now2 a2 hle
    simp [Device.try_refresh_session, hle]
  by_cases hr : min (d.refresh_retires + 1) SESSION_REFRESH_RETRIES = SESSION_REFRESH_RETRIES
  · have hdev : (d.refresh_session now (.error e)).device
        = { d with refresh_retires := min (d.refresh_retires + 1) SESSION_REFRESH_RETRIES,
                   session_status := .repeatedFailure,
                   next_session_action := now + REPEATED_FAILURE_RETRY_MILLIS } := by
      simp [Device.refresh_session, h, hr]
    refine ⟨by simp [hdev], ?_, ?_, ?_, hnoop _, hgo _⟩
    · intro _
      constructor <;> simp [hdev]
    · intro hlt
      simp [hdev, hr] at hlt
    · intro _ hlt
      simp [hdev, hr] at hlt
  · have hdev : (d.refresh_session now (.error e)).device
        = { d with refresh_retires := min (d.refresh_retires + 1) SESSION_REFRESH_RETRIES } := by
      simp [Device.refresh_session, h, hr]
    refine ⟨by simp [hdev], ?_, ?_, ?_, hnoop _, hgo _⟩
    · intro heq
      simp [hdev] at heq
      exact absurd (min_eq_right heq) hr
    · intro _
      constructor <;> simp [hdev]
    · intro hst _
      simp [hdev]
      exact hst

/-- C4 witness: a handler-less device with 9 recorded failures reaches the
RepeatedFailure threshold on the next failed acquisition, and a
try_refresh_session call one millisecond before cooldown expiry is a
no-op. -/
theorem c4_session_backoff_witness :
    (({ address := "a", name := "lamp", dtype := .generic,
        session_status := .failure, next_session_action := 0,
        handler := none, refresh_retires := 9 } : Device).refresh_session
          1000 (.error (.otherError "unreachable"))).device.session_status
      = .repeatedFailure
    ∧ (({ address := "a", name := "lamp", dtype := .generic,
          session_status := .failure, next_session_action := 0,
          handler := none, refresh_retires := 9 } : Device).refresh_session
            1000 (.error (.otherError "unreachable"))).device.try_refresh_session
          1500 (.ok ())
        = { device := (({ address := "a", name := "lamp", dtype := .generic,
                          session_status := .failure, next_session_action := 0,
                          handler := none, refresh_retires := 9 } : Device).refresh_session
                            1000 (.error (.otherError "unreachable"))).device,
            result := .ok (), events := [] } := by
  have h := c4_session_backoff
    { address := "a", name := "lamp", dtype := .generic,
      session_status := .failure, next_session_action := 0,
      handler := none, refresh_retires := 9 } 1000 (.otherError "unreachable") rfl
  exact ⟨(h.2.1 (by decide)).1, h.2.2.2.2.1 1500 (.ok ()) (by decide)⟩

/-- C5 counterexample: with current brightness 90 a relative change of 0 is
resolved to 91 (the source forces the magnitude of a relative change up to
at least 1), not the claimed clamp(90 + 0) = 90; with current brightness 10
a relative change of −50 underflows the u8 subtraction (panic under debug
overflow checks; under release wrapping semantics the wrapped 216 is then
clamped to 100), not the claimed clamp(10 − 50) = 1; and with current
brightness 100 a relative change of i32::MIN passes through the wrapping
i32 abs (debug panic), so its clamped magnitude is 1 and the result is 99,
not the claimed clamp(100 − 2^31) = 1. -/
theorem c5_brightness_counterexample :
    get_transformed_brightness { brightness := some 90 } ⟨false, 0⟩ = 91
    ∧ (spec_clamped 90 0 1 100).toNat = 90
    ∧ get_transformed_brightness { brightness := some 90 } ⟨false, 0⟩
        ≠ (spec_clamped 90 0 1 100).toNat
    ∧ get_transformed_brightness { brightness := some 10 } ⟨false, -50⟩ = 100
    ∧ (spec_clamped 10 (-50) 1 100).toNat = 1
    ∧ get_transformed_brightness { brightness := some 100 } ⟨false, -2147483648⟩ = 99
    ∧ (spec_clamped 100 (-2147483648) 1 100).toNat = 1 := by
  refine ⟨by decide, by decide, by decide, by decide, by decide, by decide, by decide⟩

/-- C5 amended: for current brightness in [1,100] the resolved relative
brightness equals current + value clamped into [1,100], provided the
change is strictly greater than i32::MIN and is non-zero and, when
negative, its magnitude clamped to 100 does not exceed the current value
(the excluded cases are exactly the counterexamples: a zero change is
forced to +1, a larger negative change underflows the u8 subtraction, and
at i32::MIN the wrapping i32 abs reduces the magnitude to 1). -/
theorem c5_brightness_amended (info : InfoResponse) (v : Int)
    (hcur1 : 1 ≤ u8OfNat (info.brightness.getD 0))
    (hcur2 : u8OfNat (info.brightness.getD 0) ≤ 100)
    (hmin : -2147483648 < v)
    (hv : 1 ≤ v ∨ (v < 0 ∧ min v.natAbs 100 ≤ u8OfNat (info.brightness.getD 0))) :
    get_transformed_brightness info ⟨false, v⟩
      = (spec_clamped (u8OfNat (info.brightness.getD 0)) v 1 100).toNat := by
  simp only [get_transformed_brightness, spec_clamped, i32_wrapping_abs, u8OfNat, u8OfInt,
    u8add, u8sub] at *
  split_ifs at * <;> omega

/-- C5 witness: the amended statement evaluated at current brightness 90
and relative change +30, giving the spec example value 100. -/
theorem c5_brightness_amended_witness :
    get_transformed_brightness { brightness := some 90 } ⟨false, 30⟩
      = (spec_clamped (u8OfNat (({ brightness := some 90 } : InfoResponse).brightness.getD 0))
          30 1 100).toNat := by
  exact c5_brightness_amended { brightness := some 90 } 30 (by decide) (by decide)
    (by decide) (Or.inl (by decide))

/-- C6 counterexample: a SetRequest carrying only a hue change (relative
+20) and no saturation change is accepted by the set pipeline: the result
is Ok with the cached snapshot unchanged (the lone change is silently
dropped by hue.zip(saturation)), refuting the claimed InvalidArgument
failure. -/
theorem c6_lone_hue_counterexample :
    set_color_light (fun _ => (0, 0, 0)) (fun _ _ _ _ => none)
      { device := "lamp", hue_saturation := some { hue := some ⟨false, 20⟩ } }
      { brightness := some 40, device_on := some true, hue := some 100,
        on_time := some 5, saturation := some 50, temperature := some 0 }
      (.ok ())
    = .ok { brightness := some 40, device_on := some true, hue := some 100,
            on_time := some 5, saturation := some 50, temperature := some 0 } := by
  rfl

set_option maxHeartbeats 1600000 in
/-- C6 amended: when exactly one of hueChange and saturationChange is
supplied, the set operation does NOT fail with the pairing InvalidArgument;
provided the lone change passes its absolute-range check (it is relative,
or absolute within its domain) the whole request behaves exactly as if no
hue/saturation change had been supplied at all — the lone change is
silently ignored. The pairing rejection exists only in the
validate_hue_saturation helper, which nothing in the compiled server
invokes; that helper does reject such input. -/
theorem c6_lone_hue_saturation_amended
    (colorToHst : Nat → Nat × Nat × Nat)
    (anyToRgb : Option Nat → Option Nat → Option Nat → Option Nat → Option Rgb)
    (req : SetRequest) (info0 : InfoResponse) (sendResult : Except TapoError Unit)
    (hs : HueSaturation) (hreq : req.hue_saturation = some hs)
    (hlone : (hs.hue.isSome = true ∧ hs.saturation = none)
             ∨ (hs.hue = none ∧ hs.saturation.isSome = true))
    (hhue : ∀ c, hs.hue = some c → c.absolute = true → 1 ≤ c.value ∧ c.value ≤ 360)
    (hsat : ∀ c, hs.saturation = some c → c.absolute = true → 1 ≤ c.value ∧ c.value ≤ 100) :
    (validate_hue_saturation hs).isOk = false
    ∧ set_color_light colorToHst anyToRgb req info0 sendResult
      = set_color_light colorToHst anyToRgb
          { req with hue_saturation := none } info0 sendResult := by
  rcases req with ⟨dev, col, br, temp, hsat0, pow⟩
  rcases hs with ⟨hh, hss⟩
  simp only at hreq
  subst hreq
  rcases hlone with ⟨hsome, hnone⟩ | ⟨hnone, hsome⟩
  · obtain ⟨c, hc⟩ := Option.isSome_iff_exists.mp hsome
    simp only at hc hnone
    subst hc
    subst hnone
    have hcond : ¬(c.absolute = true ∧ (1 ≤ c.value → 360 < c.value)) := by
      rintro ⟨ha, hb⟩
      obtain ⟨h1, h2⟩ := hhue c rfl ha
      exact absurd (hb h1) (not_lt.mpr h2)
    refine ⟨rfl, ?_⟩
    have hval : set_validate temp (some c) none br = set_validate temp none none br := by
      simp [set_validate, hcond]
    simp only [set_color_light]
    rw [hval]
  · obtain ⟨c, hc⟩ := Option.isSome_iff_exists.mp hsome
    simp only at hc hnone
    subst hc
    subst hnone
    have hcond : ¬(c.absolute = true ∧ (1 ≤ c.value → 100 < c.value)) := by
      rintro ⟨ha, hb⟩
      obtain ⟨h1, h2⟩ := hsat c rfl ha
      exact absurd (hb h1) (not_lt.mpr h2)
    refine ⟨rfl, ?_⟩
    have hval : set_validate temp none (some c) br = set_validate temp none none br := by
      simp [set_validate, hcond]
    simp only [set_color_light]
    rw [hval]

/-- C6 witness: the amended statement evaluated on a concrete request
holding only a relative hue change. -/
theorem c6_lone_hue_saturation_amended_witness :
    (validate_hue_saturation { hue := some ⟨false, 20⟩, saturation := none }).isOk = false
    ∧ set_color_light (fun _ => (0, 0, 0)) (fun _ _ _ _ => none)
        { device := "lamp", hue_saturation := some { hue := some ⟨false, 20⟩ } }
        ({} : InfoResponse) (.ok ())
      = set_color_light (fun _ => (0, 0, 0)) (fun _ _ _ _ => none)
          { device := "lamp", hue_saturation := none }
          ({} : InfoResponse) (.ok ()) := by
  have h := c6_lone_hue_saturation_amended (fun _ => (0, 0, 0)) (fun _ _ _ _ => none)
    { device := "lamp", hue_saturation := some { hue := some ⟨false, 20⟩ } }
    ({} : InfoResponse) (.ok ()) { hue := some ⟨false, 20⟩, saturation := none }
    rfl (Or.inl ⟨rfl, rfl⟩)
    (by intro c hc ha; cases hc; exact absurd ha (by decide))
    (by intro c hc; exact Option.noConfusion hc)
  exact h

/-- C7: in the session-timeout retry combinator, a first handler call that
fails with the distinguished session-expired error is retried exactly once
after a forced session refresh (handler invocation count 2, and a failing
retry is surfaced to the caller as the mapped structured error, never
retried again); a failing forced refresh is surfaced without retrying; any
first outcome that is not the session-expired error — success or any other
error kind — is never retried (count 1) and is surfaced mapped. The call
count is at most 2 in every case. -/
theorem c7_session_retry (first second : Except TapoError InfoResponse)
    (refreshResult : Except TapoError Unit) :
    (is_session_timeout first = false →
      TapoDeviceExt.get_info first second refreshResult = (map_tapo_err first, 1))
    ∧ (is_session_timeout first = true →
        (∀ u, refreshResult = .ok u →
          TapoDeviceExt.get_info first second refreshResult = (map_tapo_err second, 2))
        ∧ (∀ e, refreshResult = .error e →
          TapoDeviceExt.get_info first second refreshResult
            = (.error ⟨.internal, tapo_error_message e⟩, 1)))
    ∧ (TapoDeviceExt.get_info first second refreshResult).2 ≤ 2
    ∧ (∀ e, is_session_timeout first = true → refreshResult = .ok () →
        second = .error e →
        (TapoDeviceExt.get_info first second refreshResult).1
          = .error ⟨.internal, tapo_error_message e⟩) := by
  refine ⟨?_, ?_, ?_, ?_⟩
  · intro hf
    simp [TapoDeviceExt.get_info, hf]
  · intro hf
    constructor
    · intro u hu
      subst hu
      simp [TapoDeviceExt.get_info, hf]
    · intro e he
      subst he
      simp [TapoDeviceExt.get_info, hf]
  · by_cases hf : is_session_timeout first = true
    · cases refreshResult <;> simp [TapoDeviceExt.get_info, hf]
    · simp at hf
      simp [TapoDeviceExt.get_info, hf]
  · intro e hf hr hs
    subst hr
    subst hs
    simp [TapoDeviceExt.get_info, hf, map_tapo_err]

/-- C7 witness: a session-expired first call followed by a successful
refresh and a successful retry yields the retried value with exactly two
handler invocations. -/
theorem c7_session_retry_witness :
    TapoDeviceExt.get_info (Except.error (.tapo .sessionTimeout))
        (Except.ok ({} : InfoResponse)) (Except.ok ())
      = (Except.ok ({} : InfoResponse), 2) := by
  have h := c7_session_retry (Except.error (.tapo .sessionTimeout))
    (Except.ok ({} : InfoResponse)) (Except.ok ())
  exact (h.2.1 rfl).1 () rfl

/-- C8: reset and usage against a device holding a Generic-class handler
whose session action is not yet due both return the Unimplemented error,
perform no operation on the device handle, leave the device unchanged and
emit no event. -/
theorem c8_capability_gating (d : Device) (now : Nat)
    (attempt opR : Except TapoError Unit) (opU : Except TapoError DeviceUsageResult)
    (hgen : d.handler = some .generic) (hfresh : now < d.next_session_action) :
    TapoService.reset d now attempt opR
      = { result := .error ⟨.unimplemented, "Reset API is not supported by this device type"⟩,
          handle_ops := [], device := d, events := [] }
    ∧ TapoService.usage d now attempt opU
      = { result := .error ⟨.unimplemented, "Device usage API is not supported by this device type"⟩,
          handle_ops := [], device := d, events := [] } := by
  have hn : ¬ d.next_session_action ≤ now := Nat.not_le.mpr hfresh
  constructor
  · simp [TapoService.reset, Device.try_refresh_session, Device.try_refresh_handle_ops, hn, hgen]
  · simp [TapoService.usage, Device.try_refresh_session, Device.try_refresh_handle_ops, hn, hgen]

/-- C8 witness: the statement evaluated on a concrete Generic device with a
fresh session. -/
theorem c8_capability_gating_witness :
    (TapoService.reset
        { address := "a", name := "plug", dtype := .generic,
          session_status := .authenticated, next_session_action := 50,
          handler := some .generic, refresh_retires := 0 } 10 (.ok ()) (.ok ())).result
      = .error ⟨.unimplemented, "Reset API is not supported by this device type"⟩
    ∧ (TapoService.usage
        { address := "a", name := "plug", dtype := .generic,
          session_status := .authenticated, next_session_action := 50,
          handler := some .generic, refresh_retires := 0 } 10 (.ok ())
        (.ok ⟨⟨1, 2, 3⟩, ⟨4, 5, 6⟩, ⟨7, 8, 9⟩⟩)).handle_ops = [] := by
  have h := c8_capability_gating
    { address := "a", name := "plug", dtype := .generic,
      session_status := .authenticated, next_session_action := 50,
      handler := some .generic, refresh_retires := 0 } 10 (.ok ()) (.ok ())
    (.ok ⟨⟨1, 2, 3⟩, ⟨4, 5, 6⟩, ⟨7, 8, 9⟩⟩) rfl (by decide)
  constructor
  · rw [h.1]
  · rw [h.2]

/-- C9: update_info_optimistically with a snapshot equal to the cached one
returns the state unchanged and emits nothing; with a differing (or absent)
cached snapshot it stores the snapshot under the fresh timestamp and emits
exactly one DeviceStateChange event; and a second call with the identical
snapshot emits nothing, so two consecutive identical calls emit at most
one event in total. -/
theorem c9_optimistic_write (st : StateMap) (now now2 : Nat) (dev : String)
    (info : InfoResponse) :
    (∀ cur, st dev = some cur → cur.response = info →
      State.update_info_optimistically st now dev info = (st, []))
    ∧ ((∀ cur, st dev = some cur → cur.response ≠ info) →
        (State.update_info_optimistically st now dev info).1 dev = some ⟨info, now⟩
        ∧ (State.update_info_optimistically st now dev info).2 = [⟨dev, info⟩])
    ∧ (State.update_info_optimistically
        (State.update_info_optimistically st now dev info).1 now2 dev info).2 = []
    ∧ (State.update_info_optimistically st now dev info).2.length
      + (State.update_info_optimistically
          (State.update_info_optimistically st now dev info).1 now2 dev info).2.length
        ≤ 1 := by
  refine ⟨?_, ?_, ?_, ?_⟩
  · intro cur hcur heq
    simp [State.update_info_optimistically, hcur, heq]
  · intro hne
    cases hcur : st dev with
    | none => simp [State.update_info_optimistically, hcur]
    | some cur =>
      have : ¬ cur.response = info := hne cur hcur
      simp [State.update_info_optimistically, hcur, this]
  · cases hcur : st dev with
    | none => simp [State.update_info_optimistically, hcur]
    | some cur =>
      by_cases heq : cur.response = info
      · simp [State.update_info_optimistically, hcur, heq]
      · simp [State.update_info_optimistically, hcur, heq]
  · cases hcur : st dev with
    | none => simp [State.update_info_optimistically, hcur]
    | some cur =>
      by_cases heq : cur.response = info
      · simp [State.update_info_optimistically, hcur, heq]
      · simp [State.update_info_optimistically, hcur, heq]

/-- C9 witness: the statement evaluated on an empty cache — the first write
stores and emits one event. -/
theorem c9_optimistic_write_witness :
    (State.update_info_optimistically (fun _ => none) 3 "lamp"
        ({} : InfoResponse)).1 "lamp" = some ⟨({} : InfoResponse), 3⟩
    ∧ (State.update_info_optimistically (fun _ => none) 3 "lamp"
        ({} : InfoResponse)).2 = [⟨"lamp", ({} : InfoResponse)⟩] := by
  have h := c9_optimistic_write (fun _ => none) 3 4 "lamp" ({} : InfoResponse)
  exact h.2.1 (fun cur hcur => Option.noConfusion hcur)

/-- C10 counterexample: with no saturation recorded (the current value
defaults to 0) a relative change of −10 underflows the u8 arithmetic of
the set operation's saturation resolution (the inner `current − 1` and the
outer subtraction both wrap; a panic under debug overflow checks), and the
wrapped release-mode result 246 lies outside [1,100], refuting the claimed
totality. -/
theorem c10_saturation_underflow_counterexample :
    saturation_arith_ok none ⟨false, -10⟩ = false
    ∧ resolve_saturation none ⟨false, -10⟩ = 246
    ∧ ¬(1 ≤ resolve_saturation none ⟨false, -10⟩
        ∧ resolve_saturation none ⟨false, -10⟩ ≤ 100) := by
  refine ⟨by decide, by decide, by decide⟩

/-- C10 amended: for every relative saturation change, if the current
cached value (converted to u8, defaulting to 0 when absent) is at most 100
and is either at least 1 or the change is non-negative, then the u8
arithmetic is total (no underflow or overflow at any site) and the result
lies in [1,100]. The excluded case is exactly the counterexample: a
recorded-as-0-or-absent saturation combined with a negative change. -/
theorem c10_saturation_amended (current0 : Option Nat) (change : IntegerValueChange)
    (habs : change.absolute = false)
    (hle : u8OfNat (current0.getD 0) ≤ 100)
    (h1 : 1 ≤ u8OfNat (current0.getD 0) ∨ 0 ≤ change.value) :
    saturation_arith_ok current0 change = true
    ∧ 1 ≤ resolve_saturation current0 change
    ∧ resolve_saturation current0 change ≤ 100 := by
  rcases change with ⟨abs, v⟩
  simp only at habs
  subst habs
  simp only [resolve_saturation, saturation_arith_ok, u8OfNat, u8add, u8sub, u8OfInt,
    Bool.false_eq_true, if_false, Bool.and_eq_true, decide_eq_true_eq] at *
  split_ifs at * <;> refine ⟨?_, ?_, ?_⟩ <;> first
    | omega
    | (simp only [Bool.and_eq_true, decide_eq_true_eq]; omega)

/-- C10 witness: the amended statement evaluated at recorded saturation 50
and relative change −10. -/
theorem c10_saturation_amended_witness :
    saturation_arith_ok (some 50) ⟨false, -10⟩ = true
    ∧ 1 ≤ resolve_saturation (some 50) ⟨false, -10⟩
    ∧ resolve_saturation (some 50) ⟨false, -10⟩ ≤ 100 := by
  exact c10_saturation_amended (some 50) ⟨false, -10⟩ rfl (by decide) (Or.inl (by decide))

end Tapoctl
